import Mathlib

/-!
Verification of the statement-ingestion pipeline of the finance-assistant
repository (src/parsers/csv_parser.py, src/parsers/pdf_parser.py, with
src/parsers/base.py and the collaborator contracts of
src/services/sheets.py / src/services/categorizer.py kept abstract).

Shallow embedding conventions:
 - Python strings are `List Char` (ASCII assumed; the `\d` / `\s` character
   classes and `str.lower`/`str.strip` are modelled over ASCII).
 - Python float values are `PyF`: a finite value — an exact rational, on
   which negation and sign comparisons agree with binary floating point —
   or NaN, whose ordered comparisons are all false (so the CSV parsers'
   `amount <= 0` skip does not catch it).  Infinities and the textual
   `nan`/`inf` float literals are outside `pyFloat`'s parsed grammar,
   which never changes a verdict (`inf` passes `> 0` like any positive).
 - `datetime.date` is a year/month/day triple; `date(y, m, d)` construction
   validity (Gregorian calendar, years 1..9999) is modelled exactly.
 - Fallible Python calls are `Option`/`Except`; an exception raised by a
   collaborator is an `Except.error` value.
 - `pandas.DataFrame` rows are modelled as records holding the outcome of
   each field access the parsers perform (`float(row["Amount"])`,
   `pd.to_datetime(row[...]).date()`, `str(row["Description"]).strip()`,
   `row.get("Debit")`), since those outcomes are what the parser code
   branches on.
 - `pdfplumber` pages are modelled as a list of tables plus optional text,
   exactly the two accessors (`extract_tables`, `extract_text`) the code uses.
 - The regular expressions of pdf_parser.py are embedded as specialised
   backtracking matchers whose candidate order reproduces the greedy / lazy /
   alternation order of Python's `re` engine on those exact patterns.
-/

/-! ## Basic string helpers (Python str semantics over ASCII) -/

/-- ASCII decimal digit, the `\d` class of Python `re` restricted to ASCII. -/
def isDigitChar (c : Char) : Bool := '0' ≤ c && c ≤ '9'

/-- ASCII whitespace: the characters Python's `str.strip()` removes and
`\s` matches, restricted to ASCII. -/
def isSpaceChar (c : Char) : Bool :=
  c = ' ' || c = '\t' || c = '\n' || c = '\x0d' || c = '\x0b' || c = '\x0c'

/-- Python `str.strip()`. -/
def pyStrip (s : List Char) : List Char :=
  ((s.dropWhile isSpaceChar).reverse.dropWhile isSpaceChar).reverse

/-- Python `str.lower()` (ASCII). -/
def pyLower (s : List Char) : List Char := s.map Char.toLower

/-- Does `pre` start `s`?  (Python `str.startswith`.) -/
def startsList (pre s : List Char) : Bool :=
  decide (s.take pre.length = pre)

/-- Python `needle in hay` substring containment. -/
def containsSub (needle hay : List Char) : Bool :=
  (List.range (hay.length + 1)).any (fun i => startsList needle (hay.drop i))

/-- Numeric value of a list of ASCII digits (Python `int` on a digit string). -/
def digitsVal (ds : List Char) : Nat :=
  ds.foldl (fun a c => a * 10 + (c.toNat - 48)) 0

/-- Split a list at every occurrence of `sep` (Python `str.split(sep)`). -/
def splitOnChar (sep : Char) : List Char → List (List Char)
  | [] => [[]]
  | c :: rest =>
    let r := splitOnChar sep rest
    if c = sep then [] :: r
    else match r with
      | [] => [[c]]
      | h :: t => (c :: h) :: t

/-- Python `sep.join(parts)`. -/
def joinWith (sep : List Char) : List (List Char) → List Char
  | [] => []
  | [p] => p
  | p :: rest => p ++ sep ++ joinWith sep rest

/-- First `some` produced by `f` over `l`, trying elements in order
(the priority order of a backtracking regex engine). -/
def firstSome (l : List α) (f : α → Option β) : Option β :=
  match l with
  | [] => none
  | a :: rest =>
    match f a with
    | some b => some b
    | none => firstSome rest f

/-! ## Python numeric literal parsing

`float(s)` / `int(s)` on strings, as called by `_parse_amount`,
`_parse_date` (csv/pdf parsers).  Modelled for the sign/digits/fraction/
exponent fragment of Python's grammar; `inf`/`nan` literals and `_`
digit separators are not modelled. -/

/-- Leading sign of a Python numeric literal; `true` means negative. -/
def splitSign : List Char → Bool × List Char
  | '-' :: rest => (true, rest)
  | '+' :: rest => (false, rest)
  | s => (false, s)

/-- Maximal leading digit run. -/
def spanDigits (s : List Char) : List Char × List Char :=
  (s.takeWhile isDigitChar, s.dropWhile isDigitChar)

/-- Optional exponent suffix `(e|E)[+-]?digits`; `some e` gives the decimal
exponent, `none` when the suffix is malformed or followed by junk. -/
def pyExpSuffix (r : List Char) : Option Int :=
  match r with
  | [] => some 0
  | c :: rest =>
    if c = 'e' || c = 'E' then
      let (eneg, r2) := splitSign rest
      let (ds, r3) := spanDigits r2
      if ds = [] || r3 ≠ [] then none
      else some (if eneg then -(digitsVal ds : Int) else (digitsVal ds : Int))
    else none

/-- The rational `sn * 10^e / 10^scale`, built with one `mkRat` so that the
value kernel-reduces to normal form. -/
def ratScaled (sn : Int) (scale : Nat) (e : Int) : ℚ :=
  if 0 ≤ e then mkRat (sn * 10 ^ e.toNat) (10 ^ scale)
  else mkRat sn (10 ^ (scale + (-e).toNat))

/-- Python `float(s)` on a string (finite decimal literals). -/
def pyFloat (s : List Char) : Option ℚ :=
  let t := pyStrip s
  let (neg, t1) := splitSign t
  let (ip, r1) := spanDigits t1
  let build : Nat → Nat → List Char → Option ℚ := fun n scale r =>
    (pyExpSuffix r).map fun e =>
      ratScaled (if neg then -(n : Int) else (n : Int)) scale e
  match r1 with
  | '.' :: r2 =>
    let (fp, r3) := spanDigits r2
    if ip = [] && fp = [] then none
    else build (digitsVal ip * 10 ^ fp.length + digitsVal fp) fp.length r3
  | r =>
    if ip = [] then none
    else build (digitsVal ip) 0 r

/-- Python `int(s)` on a string: optional surrounding whitespace, optional
sign, nonempty digit run. -/
def pyInt (s : List Char) : Option Int :=
  let t := pyStrip s
  let (neg, t1) := splitSign t
  if t1 ≠ [] && t1.all isDigitChar then
    some (if neg then -(digitsVal t1 : Int) else (digitsVal t1 : Int))
  else none

/-! ## Dates (`datetime.date`) -/

/-- A Python `datetime.date` value. -/
structure PyDate where
  year : Nat
  month : Nat
  day : Nat
deriving DecidableEq, Repr

/-- Gregorian leap year. -/
def isLeapYear (y : Nat) : Bool := y % 4 = 0 && (y % 100 ≠ 0 || y % 400 = 0)

/-- Days in a month (month 1..12). -/
def daysInMonth (y m : Nat) : Nat :=
  if m = 2 then (if isLeapYear y then 29 else 28)
  else if m = 4 || m = 6 || m = 9 || m = 11 then 30
  else 31

/-- `datetime.date(y, m, d)`: `some` on valid calendar dates
(year 1..9999), `none` when construction raises `ValueError`. -/
def mkDate (y m d : Int) : Option PyDate :=
  if 1 ≤ y && y ≤ 9999 && 1 ≤ m && m ≤ 12 && 1 ≤ d
      && d ≤ (daysInMonth y.toNat m.toNat : Int) then
    some ⟨y.toNat, m.toNat, d.toNat⟩
  else none

/-! ## pdf_parser.py helpers -/

/-- `PAYMENT_KEYWORDS` of pdf_parser.py, in source order. -/
def PAYMENT_KEYWORDS : List (List Char) :=
  ["payment".toList, "thank you".toList, "credit".toList, "autopay".toList,
   "refund".toList, "adjustment".toList, "late fee reversal".toList,
   "returned".toList]

/-- `_is_payment(description)` of pdf_parser.py: case-insensitive containment
check of any payment keyword. -/
def is_payment (description : List Char) : Bool :=
  PAYMENT_KEYWORDS.any (fun kw => containsSub kw (pyLower description))

/-- `_parse_amount(amount_str)` of pdf_parser.py: drop every `,` and `$`,
strip, then `float(...)`; `none` when that raises. -/
def parse_amount (s : List Char) : Option ℚ :=
  pyFloat (pyStrip (s.filter (fun c => c ≠ ',' && c ≠ '$')))

/-- `datetime.strptime(s, "%m/%d/%Y")` restricted to the date part:
three `/`-separated fields, month 1-2 digits valued 1..12, day 1-2 digits
valued 1..31, year exactly 4 digits, then calendar-validity of the triple. -/
def strptime_mdY (s : List Char) : Option PyDate :=
  match splitOnChar '/' s with
  | [mp, dp, yp] =>
    if mp.all isDigitChar && 1 ≤ mp.length && mp.length ≤ 2
        && 1 ≤ digitsVal mp && digitsVal mp ≤ 12
        && dp.all isDigitChar && 1 ≤ dp.length && dp.length ≤ 2
        && 1 ≤ digitsVal dp && digitsVal dp ≤ 31
        && yp.all isDigitChar && yp.length = 4 then
      mkDate (digitsVal yp) (digitsVal mp) (digitsVal dp)
    else none
  | _ => none

/-- `datetime.strptime(s, "%m/%d/%y")`: as `strptime_mdY` but the year is
exactly 2 digits, pivoted to 2000..2068 / 1969..1999. -/
def strptime_mdy (s : List Char) : Option PyDate :=
  match splitOnChar '/' s with
  | [mp, dp, yp] =>
    if mp.all isDigitChar && 1 ≤ mp.length && mp.length ≤ 2
        && 1 ≤ digitsVal mp && digitsVal mp ≤ 12
        && dp.all isDigitChar && 1 ≤ dp.length && dp.length ≤ 2
        && 1 ≤ digitsVal dp && digitsVal dp ≤ 31
        && yp.all isDigitChar && yp.length = 2 then
      mkDate (if digitsVal yp ≤ 68 then 2000 + digitsVal yp else 1900 + digitsVal yp)
        (digitsVal mp) (digitsVal dp)
    else none
  | _ => none

/-- `_parse_date(date_str, statement_year)` of pdf_parser.py.  `todayYear`
models the ambient `date.today().year`.  The `statement_year or ...`
fallback is Python truthiness: `None` and `0` both fall back. -/
def parse_date (s : List Char) (statementYear : Option Nat) (todayYear : Nat) :
    Option PyDate :=
  let t := pyStrip s
  match strptime_mdY t with
  | some d => some d
  | none =>
  match strptime_mdy t with
  | some d => some d
  | none =>
  match splitOnChar '/' t with
  | [p1, p2] =>
    match pyInt p1, pyInt p2 with
    | some m, some dd =>
      let y : Nat :=
        match statementYear with
        | some sy => if sy = 0 then todayYear else sy
        | none => todayYear
      mkDate (y : Int) m dd
    | _, _ => none
  | _ => none

/-! ## Embedded regular expressions of pdf_parser.py

Each Python pattern is embedded as a matcher whose candidate order is the
backtracking order of Python's `re` engine on that pattern: greedy
quantifiers try longer consumptions first, lazy ones shorter, alternations
left to right; the first complete match wins. -/

/-- `re.search`: try the matcher at position 0, 1, ... and return the first
success (leftmost-match rule). -/
def reSearch (f : List Char → Option β) : List Char → Option β
  | [] => f []
  | c :: rest =>
    match f (c :: rest) with
    | some v => some v
    | none => reSearch f rest

/-- Anchored match of `\d{1,2}/\d{1,2}/(\d{4})` (the first pattern of
`_extract_year_from_text`); returns the captured 4-digit year.  Candidate
order `(2,2),(2,1),(1,2),(1,1)` is the greedy order of the two `\d{1,2}`. -/
def matchSlashYear (t : List Char) : Option Nat :=
  firstSome [(2, 2), (2, 1), (1, 2), (1, 1)] fun ab =>
    let m := t.take ab.1
    if m.length = ab.1 && m.all isDigitChar then
      match t.drop ab.1 with
      | '/' :: r2 =>
        let d := r2.take ab.2
        if d.length = ab.2 && d.all isDigitChar then
          match r2.drop ab.2 with
          | '/' :: r3 =>
            let y := r3.take 4
            if y.length = 4 && y.all isDigitChar then some (digitsVal y) else none
          | _ => none
        else none
      | _ => none
    else none

/-- The twelve English month names, in the alternation order of the second
pattern of `_extract_year_from_text` (case-sensitive, as in the source). -/
def monthNames : List (List Char) :=
  ["January".toList, "February".toList, "March".toList, "April".toList,
   "May".toList, "June".toList, "July".toList, "August".toList,
   "September".toList, "October".toList, "November".toList, "December".toList]

/-- Anchored match of `(January|...|December)\s+(\d{4})`; returns the
captured year.  `\s+` is greedy, and since whitespace and digits are
disjoint no backtracking into it can succeed. -/
def matchMonthYear (t : List Char) : Option Nat :=
  firstSome monthNames fun mn =>
    if startsList mn t then
      let r := t.drop mn.length
      let sp := r.takeWhile isSpaceChar
      if sp = [] then none
      else
        let y := (r.drop sp.length).take 4
        if y.length = 4 && y.all isDigitChar then some (digitsVal y) else none
    else none

/-- `_extract_year_from_text(full_text)` of pdf_parser.py: first
`re.search` for `(\d{1,2}/\d{1,2}/(\d{4}))`, and only if that fails,
`re.search` for a month-name + 4-digit-year phrase. -/
def extract_year_from_text (s : List Char) : Option Nat :=
  match reSearch matchSlashYear s with
  | some y => some y
  | none => reSearch matchMonthYear s

/-! ### `TRANSACTION_LINE` -/

/-- Candidates for the date group `\d{1,2}/\d{1,2}(?:/\d{2,4})?` at the
start of `t`: pairs (captured text, rest) in backtracking priority order.
The optional year group is greedy: present with 4, 3, 2 digits, then
absent. -/
def datePieceCands (t : List Char) : List (List Char × List Char) :=
  ([(2, 2), (2, 1), (1, 2), (1, 1)] : List (Nat × Nat)).flatMap fun ab =>
    let m := t.take ab.1
    if m.length = ab.1 && m.all isDigitChar then
      match t.drop ab.1 with
      | '/' :: r2 =>
        let d := r2.take ab.2
        if d.length = ab.2 && d.all isDigitChar then
          let base := m ++ '/' :: d
          let r3 := r2.drop ab.2
          let yearCands :=
            match r3 with
            | '/' :: r4 =>
              ([4, 3, 2] : List Nat).filterMap fun k =>
                let y := r4.take k
                if y.length = k && y.all isDigitChar then
                  some (base ++ '/' :: y, r4.drop k)
                else none
            | _ => []
          yearCands ++ [(base, r3)]
        else []
      | _ => []
    else []

/-- Candidates for greedy `\s+` at the start of `t`: the rest after
consuming `k` whitespace characters, longest first, `k ≥ 1`. -/
def ws1Cands (t : List Char) : List (List Char) :=
  let n := (t.takeWhile isSpaceChar).length
  (List.range n).reverse.map (fun i => t.drop (i + 1))

/-- Candidates for lazy `(.+?)` at the start of `t`: (captured, rest) for
prefixes of length 1, 2, ... none containing a newline, shortest first. -/
def lazyDotCands (t : List Char) : List (List Char × List Char) :=
  let n := (t.takeWhile (fun c => c ≠ '\n')).length
  (List.range n).map (fun i => (t.take (i + 1), t.drop (i + 1)))

/-- Candidates for `[\$]?`: with the dollar sign consumed first, then
without. -/
def dollarCands (t : List Char) : List (List Char) :=
  match t with
  | '$' :: rest => [rest, t]
  | _ => [t]

/-- Candidates for greedy `[\d,]+`: (captured, rest), longest run first. -/
def amtRunCands (t : List Char) : List (List Char × List Char) :=
  let n := (t.takeWhile (fun c => isDigitChar c || c = ',')).length
  (List.range n).reverse.map (fun i => (t.take (i + 1), t.drop (i + 1)))

/-- Anchored match of
`TRANSACTION_LINE = (\d{1,2}/\d{1,2}(?:/\d{2,4})?)\s+(.+?)\s+[\$]?([\d,]+\.\d{2})\s*$`
of pdf_parser.py; returns the three captured groups (date, description,
amount).  `\s*$` succeeds exactly when the remainder is all whitespace. -/
def matchTransactionLine (s : List Char) :
    Option (List Char × List Char × List Char) :=
  (datePieceCands s |>.flatMap fun g1r =>
   ws1Cands g1r.2 |>.flatMap fun r2 =>
   lazyDotCands r2 |>.flatMap fun g2r =>
   ws1Cands g2r.2 |>.flatMap fun r4 =>
   dollarCands r4 |>.flatMap fun r5 =>
   amtRunCands r5 |>.flatMap fun g3r =>
   match g3r.2 with
   | '.' :: d1 :: d2 :: r7 =>
     if isDigitChar d1 && isDigitChar d2 && r7.all isSpaceChar then
       [(g1r.1, g2r.1, g3r.1 ++ '.' :: [d1, d2])]
     else []
   | _ => []).head?

/-! ## Python float values

Transaction amounts are Python floats.  A float value arriving at the
parsers' comparisons is either a finite value — modelled exactly as a
rational — or `nan` (e.g. `float(row["Amount"])` on a blank cell, which
pandas reads as NaN: `float(nan)` returns `nan` without raising).  Every
ordered comparison against `nan` is false in Python, so `nan <= 0` does
NOT skip a row and `nan > 0` does not accept one; `-nan` is `nan`.
Infinities and the textual `nan`/`inf` float literals remain outside the
model (`pyFloat` above does not produce them), which never changes a
verdict: `inf` passes a `> 0` test like any positive finite value. -/

/-- A Python float value: a finite value (exact rational) or NaN. -/
inductive PyF where
  | num (q : ℚ)
  | nan
deriving DecidableEq, Repr

/-- Python unary minus on a float: `-nan` is `nan`. -/
def PyF.neg : PyF → PyF
  | .num q => .num (-q)
  | .nan => .nan

instance : Neg PyF := ⟨PyF.neg⟩

instance : OfNat PyF n := ⟨.num (OfNat.ofNat n)⟩

/-- Python `x <= 0` on a float value: false for NaN. -/
def PyF.leZero : PyF → Bool
  | .num q => decide (q ≤ 0)
  | .nan => false

/-- Python `x > 0` on a float value: false for NaN. -/
def PyF.gtZero : PyF → Bool
  | .num q => decide (0 < q)
  | .nan => false

/-! ## NormalizedTransaction -/

/-- The `{"date": ..., "amount": ..., "description": ...}` dicts every
extractor produces (`NormalizedTransaction` of the spec). -/
structure Txn where
  date : PyDate
  amount : PyF
  description : List Char
deriving DecidableEq, Repr

/-! ## CSV side (csv_parser.py)

A `pandas` row is modelled by the outcome of each access the four parsers
perform on it: `none` for an access that raises (`ValueError`/`KeyError`,
which the row loop catches), `some` for a successful one. -/

/-- One CSV row, by access outcome.
  * `floatAmount` — `float(row["Amount"])`: `none` when it raises,
    `some .nan` when the cell is NaN (blank cell), `some (.num v)` for a
    finite value.
  * `dateTrans`   — `pd.to_datetime(row["Transaction Date"]).date()`
  * `dateDate`    — `pd.to_datetime(row["Date"]).date()`
  * `dateTransDot`— `pd.to_datetime(row["Trans. Date"]).date()`
  * `descr`       — `str(row["Description"]).strip()`
  * `debit`       — `row.get("Debit")`: `none` when missing/NaN/empty
    (the `pd.isna(debit) or debit == ""` skip), `some none` when
    `float(debit)` raises, `some (some v)` when it yields `v`. -/
structure CsvRow where
  floatAmount : Option PyF
  dateTrans : Option PyDate
  dateDate : Option PyDate
  dateTransDot : Option PyDate
  descr : Option (List Char)
  debit : Option (Option PyF)
deriving DecidableEq, Repr

/-- `ChaseParser.parse`: negate the raw amount (Chase stores purchases
negative) and skip rows with `amount <= 0` — a Python comparison that is
false for NaN, so a NaN amount is NOT skipped; a row whose amount or date
access raises is skipped. -/
def chase_parse (rows : List CsvRow) : List Txn :=
  rows.filterMap fun r =>
    match r.floatAmount with
    | none => none
    | some raw =>
      let amount := -raw
      if PyF.leZero amount then none
      else
        match r.dateTrans, r.descr with
        | some d, some ds => some ⟨d, amount, ds⟩
        | _, _ => none

/-- `AmexParser.parse`: purchases already positive; skip `amount <= 0`
(false for NaN: a NaN amount is kept). -/
def amex_parse (rows : List CsvRow) : List Txn :=
  rows.filterMap fun r =>
    match r.floatAmount with
    | none => none
    | some amount =>
      if PyF.leZero amount then none
      else
        match r.dateDate, r.descr with
        | some d, some ds => some ⟨d, amount, ds⟩
        | _, _ => none

/-- `DiscoverParser.parse`: purchases positive, date from `Trans. Date`;
the `amount <= 0` skip is false for NaN. -/
def discover_parse (rows : List CsvRow) : List Txn :=
  rows.filterMap fun r =>
    match r.floatAmount with
    | none => none
    | some amount =>
      if PyF.leZero amount then none
      else
        match r.dateTransDot, r.descr with
        | some d, some ds => some ⟨d, amount, ds⟩
        | _, _ => none

/-- `CapitalOneParser.parse`: separate Debit/Credit columns; rows with an
empty/NaN Debit cell are payments and skipped before `float(debit)` is
attempted. -/
def capitalone_parse (rows : List CsvRow) : List Txn :=
  rows.filterMap fun r =>
    match r.debit with
    | none => none
    | some none => none
    | some (some amount) =>
      if PyF.leZero amount then none
      else
        match r.dateTrans, r.descr with
        | some d, some ds => some ⟨d, amount, ds⟩
        | _, _ => none

/-- The four supported banks. -/
inductive Bank where
  | capitalOne
  | chase
  | discover
  | amex
deriving DecidableEq, Repr

/-- `{c.lower().strip() for c in df.columns}`. -/
def colsNorm (columns : List (List Char)) : List (List Char) :=
  columns.map fun c => pyLower (pyStrip c)

/-- Membership of a (lowercase) name in the normalised column set. -/
def hasCol (columns : List (List Char)) (name : List Char) : Bool :=
  (colsNorm columns).contains name

/-- The `can_parse` column predicates of csv_parser.py. -/
def bank_can_parse : Bank → List (List Char) → Bool
  | .chase, cols =>
    hasCol cols "transaction date".toList && hasCol cols "description".toList
      && hasCol cols "amount".toList && hasCol cols "post date".toList
  | .amex, cols =>
    hasCol cols "date".toList && hasCol cols "description".toList
      && hasCol cols "amount".toList && !hasCol cols "transaction date".toList
      && !hasCol cols "trans. date".toList
  | .discover, cols =>
    hasCol cols "trans. date".toList && hasCol cols "description".toList
      && hasCol cols "amount".toList
  | .capitalOne, cols =>
    hasCol cols "transaction date".toList && hasCol cols "description".toList
      && hasCol cols "debit".toList && hasCol cols "credit".toList

/-- `ALL_PARSERS` of csv_parser.py, in source order (Capital One before
Chase, as the source comment demands). -/
def ALL_PARSERS : List Bank := [.capitalOne, .chase, .discover, .amex]

/-- `detect_bank(df)`: first parser whose `can_parse` accepts the columns. -/
def detect_bank (cols : List (List Char)) : Option Bank :=
  ALL_PARSERS.find? (fun b => bank_can_parse b cols)

/-- `bank_name` attributes. -/
def bank_name : Bank → List Char
  | .capitalOne => "Capital One".toList
  | .chase => "Chase".toList
  | .discover => "Discover".toList
  | .amex => "Amex".toList

/-- Dispatch `parser.parse(df)` for the detected CSV parser. -/
def bank_parse : Bank → List CsvRow → List Txn
  | .capitalOne => capitalone_parse
  | .chase => chase_parse
  | .discover => discover_parse
  | .amex => amex_parse

/-! ## PDF side (pdf_parser.py) -/

/-- A `pdfplumber` table cell (`None` or a string). -/
abbrev Cell := Option (List Char)

/-- A `pdfplumber` page, by the two accessors the code uses:
`extract_tables()` and `extract_text()` (the latter can return `None`). -/
structure PdfPage where
  tables : List (List (List Cell))
  text : Option (List Char)
deriving DecidableEq, Repr

/-- A `pdfplumber` document. -/
structure PdfDoc where
  pages : List PdfPage
deriving DecidableEq, Repr

/-- `str(cell).strip() if cell else ""` of the table-row loops. -/
def cellText : Cell → List Char
  | none => []
  | some s => pyStrip s

/-- `_try_parse_row(cells, statement_year)` (the identical method of
`ChasePdfParser` and `DiscoverPdfParser`): classify each nonempty cell as
the first parseable date, else an amount (last numeric cell wins), else
part of the description; keep the row only when a date and a positive
amount were found, the description is nonempty, and it does not look like
a payment. -/
def try_parse_row (cells : List (List Char)) (sy : Option Nat) (ty : Nat) :
    Option Txn :=
  let st := cells.foldl
    (fun (acc : Option PyDate × Option ℚ × List (List Char)) cell =>
      if cell = [] then acc
      else
        match acc.1, parse_date cell sy ty with
        | none, some d => (some d, acc.2.1, acc.2.2)
        | _, _ =>
          match parse_amount cell with
          | some a => (acc.1, some a, acc.2.2)
          | none => (acc.1, acc.2.1, acc.2.2 ++ [cell]))
    (none, none, [])
  let description := pyStrip (joinWith " ".toList st.2.2)
  match st.1, st.2.1 with
  | some d, some a =>
    if 0 < a ∧ description ≠ [] ∧ is_payment description = false then
      some ⟨d, .num a, description⟩
    else none
  | _, _ => none

/-- The shared text-fallback loop: split the page text on newlines, strip
each line, match `TRANSACTION_LINE`, and keep positive non-payment rows.
This is `ChasePdfParser._parse_text_lines` and the identical inline loops
of `AmexPdfParser`, `DiscoverPdfParser` and `CapitalOnePdfParser`. -/
def text_line_txns (text : List Char) (sy : Option Nat) (ty : Nat) : List Txn :=
  (splitOnChar '\n' text).filterMap fun line =>
    match matchTransactionLine (pyStrip line) with
    | none => none
    | some (g1, g2, g3) =>
      let description := pyStrip g2
      match parse_date g1 sy ty, parse_amount g3 with
      | some d, some a =>
        if 0 < a ∧ is_payment description = false then
          some ⟨d, .num a, description⟩
        else none
      | _, _ => none

/-- `ChasePdfParser._parse_table_rows`: rows shorter than 2 cells are
skipped, the rest go through `_try_parse_row` on stripped cell text. -/
def chase_parse_table_rows (table : List (List Cell)) (sy : Option Nat)
    (ty : Nat) : List Txn :=
  table.filterMap fun row =>
    if row.length < 2 then none
    else try_parse_row (row.map cellText) sy ty

/-- The Discover table-row loop: rows shorter than 3 cells are skipped. -/
def discover_parse_table_rows (table : List (List Cell)) (sy : Option Nat)
    (ty : Nat) : List Txn :=
  table.filterMap fun row =>
    if row.length < 3 then none
    else try_parse_row (row.map cellText) sy ty

/-- `ChasePdfParser.parse_transactions`: per page, table extraction first;
only a page with no tables falls back to text lines. -/
def chasePdf_parse_transactions (doc : PdfDoc) (sy : Option Nat) (ty : Nat) :
    List Txn :=
  doc.pages.flatMap fun page =>
    if page.tables.isEmpty then text_line_txns (page.text.getD []) sy ty
    else page.tables.flatMap fun tb => chase_parse_table_rows tb sy ty

/-- `DiscoverPdfParser.parse_transactions`: tables first, text fallback. -/
def discoverPdf_parse_transactions (doc : PdfDoc) (sy : Option Nat) (ty : Nat) :
    List Txn :=
  doc.pages.flatMap fun page =>
    if page.tables.isEmpty then text_line_txns (page.text.getD []) sy ty
    else page.tables.flatMap fun tb => discover_parse_table_rows tb sy ty

/-- `AmexPdfParser.parse_transactions`: text lines on every page; the
page's tables are never consulted. -/
def amexPdf_parse_transactions (doc : PdfDoc) (sy : Option Nat) (ty : Nat) :
    List Txn :=
  doc.pages.flatMap fun page => text_line_txns (page.text.getD []) sy ty

/-- `CapitalOnePdfParser.parse_transactions`: text lines on every page; the
page's tables are never consulted. -/
def capitalOnePdf_parse_transactions (doc : PdfDoc) (sy : Option Nat)
    (ty : Nat) : List Txn :=
  doc.pages.flatMap fun page => text_line_txns (page.text.getD []) sy ty

/-- The `can_parse` first-page-text predicates of the PDF parsers. -/
def pdf_can_parse : Bank → List Char → Bool
  | .chase, text =>
    let tl := pyLower text
    containsSub "jpmorgan chase".toList tl || containsSub "chase.com".toList tl
  | .amex, text =>
    let tl := pyLower text
    containsSub "american express".toList tl || containsSub "amex".toList tl
  | .discover, text =>
    let tl := pyLower text
    containsSub "discover".toList tl
      && (containsSub "discover.com".toList tl
        || containsSub "discover bank".toList tl
        || containsSub "discover financial".toList tl
        || containsSub "cashback".toList tl)
  | .capitalOne, text => containsSub "capital one".toList (pyLower text)

/-- `ALL_PDF_PARSERS` of pdf_parser.py, in source order. -/
def ALL_PDF_PARSERS : List Bank := [.chase, .amex, .discover, .capitalOne]

/-- `detect_pdf_bank(text)`: first PDF parser accepting the first-page
text. -/
def detect_pdf_bank (text : List Char) : Option Bank :=
  ALL_PDF_PARSERS.find? (fun b => pdf_can_parse b text)

/-- Dispatch `parser.parse_transactions(pdf, statement_year)`. -/
def pdf_bank_parse : Bank → PdfDoc → Option Nat → Nat → List Txn
  | .capitalOne => capitalOnePdf_parse_transactions
  | .chase => chasePdf_parse_transactions
  | .discover => discoverPdf_parse_transactions
  | .amex => amexPdf_parse_transactions

/-! ## Statement import orchestrator

The record store (`GoogleSheetsService`) and the `Categorizer` are the
abstract collaborators: each is a stateful oracle whose call either
returns a value or raises.  `PyErr.duplicate` is
`DuplicateTransactionError`; `PyErr.other` is any other `Exception`. -/

/-- An exception raised by a collaborator call. -/
inductive PyErr where
  | duplicate
  | other (code : Nat)
deriving DecidableEq, Repr

/-- The keyword arguments of `sheets.add_transaction(...)` as the import
loops pass them. -/
structure AddArgs where
  amount : PyF
  category : List Char
  description : List Char
  user : List Char
  transaction_date : PyDate
  source : List Char
  card : List Char
deriving DecidableEq, Repr

/-- The two collaborators, as stateful oracles over arbitrary state types
(quantifying over `Collab` quantifies over every behaviour, including
order-dependent ones). -/
structure Collab (σc σs : Type) where
  categorize : σc → List Char → Except PyErr (List Char) × σc
  add_transaction : σs → AddArgs → Except PyErr Unit × σs

/-- The three outcome counters of one import call. -/
structure Counters where
  (imported : Nat)
  (skipped_duplicates : Nat)
  (errors : Nat)
deriving DecidableEq, Repr

/-- One iteration of the per-transaction loop shared by `import_csv` and
`import_pdf`: `categorize` then `add_transaction` inside one `try`;
`DuplicateTransactionError` increments `skipped_duplicates`, any other
exception increments `errors`, success increments `imported`. -/
def loop_step (env : Collab σc σs) (user card source : List Char)
    (st : Counters × σc × σs) (txn : Txn) : Counters × σc × σs :=
  let (acc, sc, ss) := st
  match env.categorize sc txn.description with
  | (.error .duplicate, sc1) =>
    ({ acc with skipped_duplicates := acc.skipped_duplicates + 1 }, sc1, ss)
  | (.error (.other _), sc1) =>
    ({ acc with errors := acc.errors + 1 }, sc1, ss)
  | (.ok category, sc1) =>
    match env.add_transaction ss
        ⟨txn.amount, category, txn.description, user, txn.date, source, card⟩ with
    | (.ok _, ss1) => ({ acc with imported := acc.imported + 1 }, sc1, ss1)
    | (.error .duplicate, ss1) =>
      ({ acc with skipped_duplicates := acc.skipped_duplicates + 1 }, sc1, ss1)
    | (.error (.other _), ss1) =>
      ({ acc with errors := acc.errors + 1 }, sc1, ss1)

/-- The whole per-transaction loop, starting from zero counters. -/
def run_loop (env : Collab σc σs) (user card source : List Char)
    (txns : List Txn) (sc : σc) (ss : σs) : Counters × σc × σs :=
  txns.foldl (loop_step env user card source) (⟨0, 0, 0⟩, sc, ss)

/-- The summary dict the import functions return. -/
structure StmtResult where
  (imported : Nat)
  (skipped_duplicates : Nat)
  (errors : Nat)
  (bank : List Char)
deriving DecidableEq, Repr

/-- `pd.DataFrame` as read from the CSV: named columns and rows. -/
structure Df where
  columns : List (List Char)
  rows : List CsvRow
deriving DecidableEq, Repr

/-- The CSV source: `unreadable e` models `pd.read_csv` raising with
message `e`; `table df` a successful read. -/
inductive CsvSource where
  | unreadable (emsg : List Char)
  | table (df : Df)
deriving DecidableEq, Repr

/-- `import_csv(filepath, sheets, categorizer, user, card)` of
csv_parser.py.  `Except.error m` models `raise InvalidDataError(m)`. -/
def csv_import (src : CsvSource) (env : Collab σc σs) (sc : σc) (ss : σs)
    (user card : List Char) : Except (List Char) (StmtResult × σc × σs) :=
  match src with
  | .unreadable e => .error ("Could not read CSV file: ".toList ++ e)
  | .table df =>
    if df.rows = [] ∨ df.columns = [] then .error "CSV file is empty.".toList
    else
      match detect_bank df.columns with
      | none =>
        .error ("Unrecognized CSV format. Columns found: ".toList
          ++ joinWith ", ".toList df.columns
          ++ "\nSupported banks: Chase, Amex, Discover, Capital One".toList)
      | some parserB =>
        let txns := bank_parse parserB df.rows
        let r := run_loop env user card "csv".toList txns sc ss
        .ok (⟨r.1.imported, r.1.skipped_duplicates, r.1.errors,
          bank_name parserB⟩, r.2.1, r.2.2)

/-- The PDF source: `unreadable e` models `pdfplumber.open` raising. -/
inductive PdfSource where
  | unreadable (emsg : List Char)
  | doc (pdf : PdfDoc)
deriving DecidableEq, Repr

/-- `import_pdf(filepath, sheets, categorizer, user, card)` of
pdf_parser.py.  `todayYear` models the ambient `date.today().year` used
when a bare `MM/DD` date needs a year and none was extracted. -/
def pdf_import (src : PdfSource) (env : Collab σc σs) (sc : σc) (ss : σs)
    (user card : List Char) (todayYear : Nat) :
    Except (List Char) (StmtResult × σc × σs) :=
  match src with
  | .unreadable e => .error ("Could not open PDF file: ".toList ++ e)
  | .doc pdf =>
    match pdf.pages with
    | [] => .error "PDF has no pages.".toList
    | p0 :: _ =>
      let firstText := p0.text.getD []
      if pyStrip firstText = [] then
        .error "PDF has no extractable text (may be image-based).".toList
      else
        match detect_pdf_bank firstText with
        | none =>
          .error ("Unrecognized PDF format. Could not identify the bank.\n"
            ++ "Supported banks: Chase, Amex, Discover, Capital One").toList
        | some parserB =>
          let fullText :=
            joinWith "\n".toList (pdf.pages.map (fun p => p.text.getD []))
          let sy := extract_year_from_text fullText
          let txns := pdf_bank_parse parserB pdf sy todayYear
          let r := run_loop env user card "statement".toList txns sc ss
          .ok (⟨r.1.imported, r.1.skipped_duplicates, r.1.errors,
            bank_name parserB⟩, r.2.1, r.2.2)

deriving instance DecidableEq for Except

/-! ## Lemmas about the per-transaction loop -/

/-- Each loop iteration increments exactly one of the three counters. -/
theorem loop_step_sum (env : Collab σc σs) (user card source : List Char)
    (st : Counters × σc × σs) (txn : Txn) :
    (loop_step env user card source st txn).1.imported
      + (loop_step env user card source st txn).1.skipped_duplicates
      + (loop_step env user card source st txn).1.errors
      = st.1.imported + st.1.skipped_duplicates + st.1.errors + 1 := by
  obtain ⟨acc, sc, ss⟩ := st
  simp only [loop_step]
  split
  · simp; omega
  · simp; omega
  · split <;> simp <;> omega

/-- Folding the loop adds one counter unit per transaction. -/
theorem foldl_loop_sum (env : Collab σc σs) (user card source : List Char)
    (txns : List Txn) :
    ∀ st : Counters × σc × σs,
      ((txns.foldl (loop_step env user card source) st).1.imported
        + (txns.foldl (loop_step env user card source) st).1.skipped_duplicates
        + (txns.foldl (loop_step env user card source) st).1.errors)
        = st.1.imported + st.1.skipped_duplicates + st.1.errors + txns.length := by
  induction txns with
  | nil => intro st; simp
  | cons t ts ih =>
    intro st
    simp only [List.foldl_cons, List.length_cons]
    rw [ih]
    have h := loop_step_sum env user card source st t
    omega

/-- The loop started from zero counters accounts for every transaction. -/
theorem run_loop_sum (env : Collab σc σs) (user card source : List Char)
    (txns : List Txn) (sc : σc) (ss : σs) :
    (run_loop env user card source txns sc ss).1.imported
      + (run_loop env user card source txns sc ss).1.skipped_duplicates
      + (run_loop env user card source txns sc ss).1.errors = txns.length := by
  have h := foldl_loop_sum env user card source txns (⟨0, 0, 0⟩, sc, ss)
  simpa [run_loop] using h

/-- Claim C1: for every list of extracted transactions and every behaviour
of the record store and categorizer, each transaction of the per-transaction
loop shared by `import_csv` and `import_pdf` lands in exactly one of the
three counters — success in `imported`, `DuplicateTransactionError` in
`skipped_duplicates`, any other exception in `errors`, with processing
continuing — so the three counters sum to the number of extracted
transactions, and a successful import call reports counters summing to the
number of transactions its detected parser extracted; no exception escapes
after extraction has begun (the loop is total for every oracle behaviour). -/
theorem claim_C1 (σc σs : Type) (env : Collab σc σs) (user card source : List Char)
    (txns : List Txn) (sc : σc) (ss : σs) :
    ((run_loop env user card source txns sc ss).1.imported
      + (run_loop env user card source txns sc ss).1.skipped_duplicates
      + (run_loop env user card source txns sc ss).1.errors = txns.length)
    ∧ (∀ src r sc' ss', csv_import src env sc ss user card = .ok (r, sc', ss') →
        ∃ df b, src = CsvSource.table df ∧ detect_bank df.columns = some b
          ∧ r.imported + r.skipped_duplicates + r.errors
            = (bank_parse b df.rows).length)
    ∧ (∀ ty src r sc' ss', pdf_import src env sc ss user card ty = .ok (r, sc', ss') →
        ∃ pdf b, src = PdfSource.doc pdf
          ∧ r.imported + r.skipped_duplicates + r.errors
            = (pdf_bank_parse b pdf
                (extract_year_from_text
                  (joinWith "\n".toList (pdf.pages.map (fun p => p.text.getD []))))
                ty).length) := by
  refine ⟨run_loop_sum env user card source txns sc ss, ?_, ?_⟩
  · rintro src r sc' ss' h
    match src with
    | .unreadable e => simp [csv_import] at h
    | .table df =>
      refine ⟨df, ?_⟩
      simp only [csv_import] at h
      split at h
      · simp at h
      · split at h
        · simp at h
        next b hb =>
          refine ⟨b, rfl, hb, ?_⟩
          simp only [Except.ok.injEq, Prod.mk.injEq] at h
          obtain ⟨hr, -, -⟩ := h
          subst hr
          exact run_loop_sum env user card "csv".toList (bank_parse b df.rows) sc ss
  · rintro ty src r sc' ss' h
    match src with
    | .unreadable e => simp [pdf_import] at h
    | .doc pdf =>
      refine ⟨pdf, ?_⟩
      simp only [pdf_import] at h
      split at h
      · simp at h
      next p0 rest hp =>
        split at h
        · simp at h
        · split at h
          · simp at h
          next b hb =>
            refine ⟨b, rfl, ?_⟩
            simp only [Except.ok.injEq, Prod.mk.injEq] at h
            obtain ⟨hr, -, -⟩ := h
            subst hr
            exact run_loop_sum env user card "statement".toList _ sc ss

/-- A collaborator pair whose categorizer always succeeds and whose record
store always accepts; used to instantiate universally quantified theorems
at a concrete behaviour. -/
def envAllOk : Collab Unit Nat :=
  ⟨fun sc _ => (.ok "Other".toList, sc), fun ss _ => (.ok (), ss + 1)⟩

/-- A collaborator pair whose record store raises
`DuplicateTransactionError` on every insert (a store already holding the
whole statement). -/
def envAllDup : Collab Unit Nat :=
  ⟨fun sc _ => (.ok "Other".toList, sc), fun ss _ => (.error .duplicate, ss)⟩

/-- A collaborator pair whose categorizer raises a non-duplicate exception
on every call. -/
def envCatBoom : Collab Unit Nat :=
  ⟨fun sc _ => (.error (.other 7), sc), fun ss _ => (.ok (), ss + 1)⟩

/-- A one-purchase Chase CSV table used to instantiate theorems. -/
def dfChaseW : Df :=
  ⟨["Transaction Date".toList, "Post Date".toList, "Description".toList,
    "Category".toList, "Type".toList, "Amount".toList, "Memo".toList],
   [⟨some (-25), some ⟨2025, 1, 15⟩, none, none, some "WHOLE FOODS".toList, none⟩]⟩

/-- Witness for C1: a concrete successful import whose counters sum to the
extracted-transaction count. -/
theorem claim_C1_witness :
    ∃ df b, CsvSource.table dfChaseW = CsvSource.table df
      ∧ detect_bank df.columns = some b
      ∧ (1 : Nat) + 0 + 0 = (bank_parse b df.rows).length :=
  (claim_C1 Unit Nat envAllOk "user1".toList [] [] [] () 0).2.1
    (CsvSource.table dfChaseW) ⟨1, 0, 0, "Chase".toList⟩ () 1 (by decide)

/-- Claim C10: an exception raised by `categorizer.categorize` (not only by
the record store) is absorbed by the per-transaction loop: a non-duplicate
exception increments `errors`, nothing is passed to the record store (the
store state is exactly the one before the transaction), and the loop
continues with the remaining transactions. -/
theorem claim_C10 (σc σs : Type) (env : Collab σc σs)
    (user card source : List Char) (acc : Counters) (sc sc' : σc) (ss : σs)
    (txn : Txn) (rest : List Txn) (i : Nat)
    (h : env.categorize sc txn.description = (.error (.other i), sc')) :
    List.foldl (loop_step env user card source) (acc, sc, ss) (txn :: rest)
      = List.foldl (loop_step env user card source)
          ({ acc with errors := acc.errors + 1 }, sc', ss) rest := by
  simp only [List.foldl_cons, loop_step, h]

/-- Witness for C10 at a concrete categorizer failure. -/
theorem claim_C10_witness :
    List.foldl (loop_step envCatBoom "user1".toList [] "csv".toList)
        (⟨0, 0, 0⟩, (), 0) [⟨⟨2025, 1, 15⟩, 5, "BOOM".toList⟩]
      = (⟨0, 0, 1⟩, (), 0) := by
  have h := claim_C10 Unit Nat envCatBoom "user1".toList [] "csv".toList
    ⟨0, 0, 0⟩ () () 0 ⟨⟨2025, 1, 15⟩, 5, "BOOM".toList⟩ [] 7 rfl
  simpa using h

/-- Under an always-succeeding categorizer and an always-duplicate store,
the loop turns every transaction into a `skipped_duplicates` increment. -/
theorem foldl_all_dup (env : Collab σc σs) (user card source : List Char)
    (hcat : ∀ st d, ∃ v, (env.categorize st d).1 = Except.ok v)
    (hadd : ∀ st a, (env.add_transaction st a).1 = Except.error PyErr.duplicate)
    (txns : List Txn) :
    ∀ (acc : Counters) (sc : σc) (ss : σs),
      (txns.foldl (loop_step env user card source) (acc, sc, ss)).1
        = ⟨acc.imported, acc.skipped_duplicates + txns.length, acc.errors⟩ := by
  induction txns with
  | nil => intro acc sc ss; simp
  | cons t ts ih =>
    intro acc sc ss
    obtain ⟨v, hv⟩ := hcat sc t.description
    rcases hp : env.categorize sc t.description with ⟨res, sc2⟩
    rw [hp] at hv
    simp only at hv
    subst hv
    rcases ha : env.add_transaction ss
        ⟨t.amount, v, t.description, user, t.date, source, card⟩ with ⟨res2, ss2⟩
    have h2 := hadd ss ⟨t.amount, v, t.description, user, t.date, source, card⟩
    rw [ha] at h2
    simp only at h2
    subst h2
    simp only [List.foldl_cons, loop_step, hp, ha]
    rw [ih]
    simp [Counters.mk.injEq]
    omega

/-- `run_loop` version of `foldl_all_dup`. -/
theorem run_loop_all_dup (env : Collab σc σs) (user card source : List Char)
    (hcat : ∀ st d, ∃ v, (env.categorize st d).1 = Except.ok v)
    (hadd : ∀ st a, (env.add_transaction st a).1 = Except.error PyErr.duplicate)
    (txns : List Txn) (sc : σc) (ss : σs) :
    (run_loop env user card source txns sc ss).1 = ⟨0, txns.length, 0⟩ := by
  have h := foldl_all_dup env user card source hcat hadd txns ⟨0, 0, 0⟩ sc ss
  simpa [run_loop] using h

/-- Claim C8: importing a statement against a record store that raises
`DuplicateTransactionError` for every transaction (the store already holds
them all) yields `imported = 0`, `skipped_duplicates = N`, `errors = 0`
where `N` is the extracted-transaction count — so re-running a completed
statement ingestion is idempotent with respect to the store. -/
theorem claim_C8 (σc σs : Type) (env : Collab σc σs) (user card : List Char)
    (sc : σc) (ss : σs)
    (hcat : ∀ st d, ∃ v, (env.categorize st d).1 = Except.ok v)
    (hadd : ∀ st a, (env.add_transaction st a).1 = Except.error PyErr.duplicate) :
    (∀ source txns, (run_loop env user card source txns sc ss).1
      = ⟨0, txns.length, 0⟩)
    ∧ (∀ df b, ¬(df.rows = [] ∨ df.columns = []) →
        detect_bank df.columns = some b →
        ∃ sc' ss', csv_import (.table df) env sc ss user card
          = .ok (⟨0, (bank_parse b df.rows).length, 0, bank_name b⟩, sc', ss'))
    ∧ (∀ (ty : Nat) (p0 : PdfPage) (rest : List PdfPage) b,
        pyStrip (p0.text.getD []) ≠ [] →
        detect_pdf_bank (p0.text.getD []) = some b →
        ∃ sc' ss', pdf_import (.doc ⟨p0 :: rest⟩) env sc ss user card ty
          = .ok (⟨0, (pdf_bank_parse b ⟨p0 :: rest⟩
              (extract_year_from_text (joinWith "\n".toList
                ((p0 :: rest).map (fun p => p.text.getD [])))) ty).length,
            0, bank_name b⟩, sc', ss')) := by
  refine ⟨fun source txns => run_loop_all_dup env user card source hcat hadd txns sc ss,
    ?_, ?_⟩
  · intro df b hne hb
    refine ⟨(run_loop env user card "csv".toList (bank_parse b df.rows) sc ss).2.1,
      (run_loop env user card "csv".toList (bank_parse b df.rows) sc ss).2.2, ?_⟩
    simp only [csv_import, if_neg hne, hb]
    have h := run_loop_all_dup env user card "csv".toList hcat hadd
      (bank_parse b df.rows) sc ss
    rw [h]
  · intro ty p0 rest b htext hb
    refine ⟨(run_loop env user card "statement".toList
        (pdf_bank_parse b ⟨p0 :: rest⟩
          (extract_year_from_text (joinWith "\n".toList
            ((p0 :: rest).map (fun p => p.text.getD [])))) ty) sc ss).2.1,
      (run_loop env user card "statement".toList
        (pdf_bank_parse b ⟨p0 :: rest⟩
          (extract_year_from_text (joinWith "\n".toList
            ((p0 :: rest).map (fun p => p.text.getD [])))) ty) sc ss).2.2, ?_⟩
    simp only [pdf_import, if_neg htext, hb]
    have h := run_loop_all_dup env user card "statement".toList hcat hadd
      (pdf_bank_parse b ⟨p0 :: rest⟩
        (extract_year_from_text (joinWith "\n".toList
          ((p0 :: rest).map (fun p => p.text.getD [])))) ty) sc ss
    rw [h]

/-- Witness for C8: a concrete one-transaction statement against an
already-full store. -/
theorem claim_C8_witness :
    ∃ sc' ss', csv_import (.table dfChaseW) envAllDup () 0 "user1".toList []
      = .ok (⟨0, (bank_parse Bank.chase dfChaseW.rows).length, 0,
          bank_name Bank.chase⟩, sc', ss') :=
  (claim_C8 Unit Nat envAllDup "user1".toList [] () 0
      (fun _ _ => ⟨"Other".toList, rfl⟩) (fun _ _ => rfl)).2.1
    dfChaseW Bank.chase (by decide) (by decide)

/-! ## Extractor output invariants -/

/-- Every transaction produced by the shared text-line loop has a finite
positive amount (Python `amount > 0`) and a non-payment description. -/
theorem mem_text_line_txns {text : List Char} {sy : Option Nat} {ty : Nat}
    {t : Txn} (h : t ∈ text_line_txns text sy ty) :
    PyF.gtZero t.amount = true ∧ is_payment t.description = false := by
  simp only [text_line_txns, List.mem_filterMap] at h
  obtain ⟨line, -, hline⟩ := h
  split at hline
  · simp at hline
  · split at hline
    · split at hline
      next hc =>
        cases hline
        simpa [PyF.gtZero] using hc
      · simp at hline
    · simp at hline

/-- Every transaction produced by `_try_parse_row` has a finite positive
amount, a nonempty description, and a non-payment description. -/
theorem try_parse_row_some {cells : List (List Char)} {sy : Option Nat}
    {ty : Nat} {t : Txn} (h : try_parse_row cells sy ty = some t) :
    PyF.gtZero t.amount = true ∧ t.description ≠ []
      ∧ is_payment t.description = false := by
  simp only [try_parse_row] at h
  split at h
  · split at h
    next hc =>
      cases h
      simpa [PyF.gtZero] using hc
    · simp at h
  · simp at h

/-- Every transaction produced by the Chase table-row loop satisfies the
purchase invariants. -/
theorem mem_chase_table_rows {table : List (List Cell)} {sy : Option Nat}
    {ty : Nat} {t : Txn} (h : t ∈ chase_parse_table_rows table sy ty) :
    PyF.gtZero t.amount = true ∧ is_payment t.description = false := by
  simp only [chase_parse_table_rows, List.mem_filterMap] at h
  obtain ⟨row, -, hrow⟩ := h
  split at hrow
  · simp at hrow
  · have hh := try_parse_row_some hrow
    exact ⟨hh.1, hh.2.2⟩

/-- Every transaction produced by the Discover table-row loop satisfies the
purchase invariants. -/
theorem mem_discover_table_rows {table : List (List Cell)} {sy : Option Nat}
    {ty : Nat} {t : Txn} (h : t ∈ discover_parse_table_rows table sy ty) :
    PyF.gtZero t.amount = true ∧ is_payment t.description = false := by
  simp only [discover_parse_table_rows, List.mem_filterMap] at h
  obtain ⟨row, -, hrow⟩ := h
  split at hrow
  · simp at hrow
  · have hh := try_parse_row_some hrow
    exact ⟨hh.1, hh.2.2⟩

/-- Purchase invariants for `ChasePdfParser.parse_transactions`. -/
theorem mem_chasePdf {doc : PdfDoc} {sy : Option Nat} {ty : Nat} {t : Txn}
    (h : t ∈ chasePdf_parse_transactions doc sy ty) :
    PyF.gtZero t.amount = true ∧ is_payment t.description = false := by
  simp only [chasePdf_parse_transactions, List.mem_flatMap] at h
  obtain ⟨page, -, hp⟩ := h
  split at hp
  · exact mem_text_line_txns hp
  · simp only [List.mem_flatMap] at hp
    obtain ⟨tb, -, htb⟩ := hp
    exact mem_chase_table_rows htb

/-- Purchase invariants for `DiscoverPdfParser.parse_transactions`. -/
theorem mem_discoverPdf {doc : PdfDoc} {sy : Option Nat} {ty : Nat} {t : Txn}
    (h : t ∈ discoverPdf_parse_transactions doc sy ty) :
    PyF.gtZero t.amount = true ∧ is_payment t.description = false := by
  simp only [discoverPdf_parse_transactions, List.mem_flatMap] at h
  obtain ⟨page, -, hp⟩ := h
  split at hp
  · exact mem_text_line_txns hp
  · simp only [List.mem_flatMap] at hp
    obtain ⟨tb, -, htb⟩ := hp
    exact mem_discover_table_rows htb

/-- Purchase invariants for `AmexPdfParser.parse_transactions`. -/
theorem mem_amexPdf {doc : PdfDoc} {sy : Option Nat} {ty : Nat} {t : Txn}
    (h : t ∈ amexPdf_parse_transactions doc sy ty) :
    PyF.gtZero t.amount = true ∧ is_payment t.description = false := by
  simp only [amexPdf_parse_transactions, List.mem_flatMap] at h
  obtain ⟨page, -, hp⟩ := h
  exact mem_text_line_txns hp

/-- Purchase invariants for `CapitalOnePdfParser.parse_transactions`. -/
theorem mem_capitalOnePdf {doc : PdfDoc} {sy : Option Nat} {ty : Nat} {t : Txn}
    (h : t ∈ capitalOnePdf_parse_transactions doc sy ty) :
    PyF.gtZero t.amount = true ∧ is_payment t.description = false := by
  simp only [capitalOnePdf_parse_transactions, List.mem_flatMap] at h
  obtain ⟨page, -, hp⟩ := h
  exact mem_text_line_txns hp

/-- Rows kept by `ChaseParser.parse` passed the `amount <= 0` skip, a
Python comparison that is also false for NaN. -/
theorem mem_chase_parse {rows : List CsvRow} {t : Txn}
    (h : t ∈ chase_parse rows) : PyF.leZero t.amount = false := by
  simp only [chase_parse, List.mem_filterMap] at h
  obtain ⟨r, -, hr⟩ := h
  split at hr
  · simp at hr
  · split at hr
    · simp at hr
    next hc =>
      split at hr
      · cases hr
        simpa using hc
      · simp at hr

/-- Rows kept by `AmexParser.parse` passed the `amount <= 0` skip. -/
theorem mem_amex_parse {rows : List CsvRow} {t : Txn}
    (h : t ∈ amex_parse rows) : PyF.leZero t.amount = false := by
  simp only [amex_parse, List.mem_filterMap] at h
  obtain ⟨r, -, hr⟩ := h
  split at hr
  · simp at hr
  · split at hr
    · simp at hr
    next hc =>
      split at hr
      · cases hr
        simpa using hc
      · simp at hr

/-- Rows kept by `DiscoverParser.parse` passed the `amount <= 0` skip. -/
theorem mem_discover_parse {rows : List CsvRow} {t : Txn}
    (h : t ∈ discover_parse rows) : PyF.leZero t.amount = false := by
  simp only [discover_parse, List.mem_filterMap] at h
  obtain ⟨r, -, hr⟩ := h
  split at hr
  · simp at hr
  · split at hr
    · simp at hr
    next hc =>
      split at hr
      · cases hr
        simpa using hc
      · simp at hr

/-- Rows kept by `CapitalOneParser.parse` passed the `amount <= 0` skip. -/
theorem mem_capitalone_parse {rows : List CsvRow} {t : Txn}
    (h : t ∈ capitalone_parse rows) : PyF.leZero t.amount = false := by
  simp only [capitalone_parse, List.mem_filterMap] at h
  obtain ⟨r, -, hr⟩ := h
  split at hr
  · simp at hr
  · simp at hr
  · split at hr
    · simp at hr
    next hc =>
      split at hr
      · cases hr
        simpa using hc
      · simp at hr

/-- A CSV row whose Amount cell is NaN (a blank cell read by pandas):
`float(row["Amount"])` returns `nan` without raising; all three date
accessors succeed so every single-amount parser reaches its guard. -/
def nanAmountRow : CsvRow :=
  ⟨some .nan, some ⟨2025, 1, 15⟩, some ⟨2025, 1, 15⟩, some ⟨2025, 1, 15⟩,
   some "WHOLE FOODS".toList, none⟩

/-- Claim C2, failing on the code: the invariant `amount > 0` (asserted by
the spec and by base.py's own docstring, "Payments/credits (amount <= 0)
should be excluded") is violated on a NaN Amount cell.  `nan <= 0` is
false in Python, so the `if amount <= 0: continue` guard of the Chase,
Amex and Discover CSV extractors does not skip the row, and a
`NormalizedTransaction` with `amount = nan` — for which `amount > 0` is
also false — is constructed.  (Capital One is protected by its
`pd.isna(debit)` skip, and the PDF extractors by their `amount > 0`
test, which NaN fails.) -/
theorem claim_C2_nan_bug :
    chase_parse [nanAmountRow]
      = [⟨⟨2025, 1, 15⟩, PyF.nan, "WHOLE FOODS".toList⟩]
    ∧ amex_parse [nanAmountRow]
      = [⟨⟨2025, 1, 15⟩, PyF.nan, "WHOLE FOODS".toList⟩]
    ∧ discover_parse [nanAmountRow]
      = [⟨⟨2025, 1, 15⟩, PyF.nan, "WHOLE FOODS".toList⟩]
    ∧ PyF.gtZero PyF.nan = false
    ∧ PyF.leZero PyF.nan = false := by
  decide

/-- Counterexample for C3: the CSV extractors never consult the
Payment/Purchase Classifier.  A Chase CSV row with raw amount `-100`
(hence resolved purchase amount `+100`) and description
`PAYMENT THANK YOU` — which `_is_payment` matches — is kept. -/
theorem counterexample_C3 :
    chase_parse
        [⟨some (-100), some ⟨2025, 1, 15⟩, none, none,
          some "PAYMENT THANK YOU".toList, none⟩]
      = [⟨⟨2025, 1, 15⟩, 100, "PAYMENT THANK YOU".toList⟩]
    ∧ is_payment "PAYMENT THANK YOU".toList = true := by decide

/-- Claim C3 as amended: only the four PDF extractors apply the
Payment/Purchase Classifier after sign resolution, keeping a row only when
Python's `amount > 0` holds (false for NaN) and the description is not
payment-like; the four CSV extractors apply only their sign convention's
`amount <= 0` skip — which drops finite non-positive amounts but lets a
NaN amount through (the C2 bug) — and never consult the classifier, so
payment-keyword descriptions can be emitted. -/
theorem claim_C3_amended :
    (∀ doc sy ty t, t ∈ chasePdf_parse_transactions doc sy ty →
      PyF.gtZero t.amount = true ∧ is_payment t.description = false)
    ∧ (∀ doc sy ty t, t ∈ amexPdf_parse_transactions doc sy ty →
      PyF.gtZero t.amount = true ∧ is_payment t.description = false)
    ∧ (∀ doc sy ty t, t ∈ discoverPdf_parse_transactions doc sy ty →
      PyF.gtZero t.amount = true ∧ is_payment t.description = false)
    ∧ (∀ doc sy ty t, t ∈ capitalOnePdf_parse_transactions doc sy ty →
      PyF.gtZero t.amount = true ∧ is_payment t.description = false)
    ∧ (∀ rows t, t ∈ chase_parse rows → PyF.leZero t.amount = false)
    ∧ (∀ rows t, t ∈ amex_parse rows → PyF.leZero t.amount = false)
    ∧ (∀ rows t, t ∈ discover_parse rows → PyF.leZero t.amount = false)
    ∧ (∀ rows t, t ∈ capitalone_parse rows → PyF.leZero t.amount = false) :=
  ⟨fun _ _ _ _ h => mem_chasePdf h,
   fun _ _ _ _ h => mem_amexPdf h,
   fun _ _ _ _ h => mem_discoverPdf h,
   fun _ _ _ _ h => mem_capitalOnePdf h,
   fun _ _ h => mem_chase_parse h,
   fun _ _ h => mem_amex_parse h,
   fun _ _ h => mem_discover_parse h,
   fun _ _ h => mem_capitalone_parse h⟩

/-- A one-page Amex-style PDF document with a single purchase line. -/
def docAmexW : PdfDoc :=
  ⟨[⟨[], some "01/15/2025 STARBUCKS 5.00".toList⟩]⟩

/-- Witness for the amended C3 at a concrete PDF text line. -/
theorem claim_C3_amended_witness :
    (⟨⟨2025, 1, 15⟩, 5, "STARBUCKS".toList⟩ : Txn)
        ∈ amexPdf_parse_transactions docAmexW none 2026
      ∧ (PyF.gtZero (⟨⟨2025, 1, 15⟩, 5, "STARBUCKS".toList⟩ : Txn).amount = true
        ∧ is_payment (⟨⟨2025, 1, 15⟩, 5, "STARBUCKS".toList⟩ : Txn).description
          = false) :=
  ⟨by decide, claim_C3_amended.2.1 docAmexW none 2026
    ⟨⟨2025, 1, 15⟩, 5, "STARBUCKS".toList⟩ (by decide)⟩
/-! ## The Payment/Purchase Classifier -/

/-- `needle in hay` holds exactly when `hay` splits as
`pre ++ needle ++ post`. -/
theorem containsSub_iff (n h : List Char) :
    containsSub n h = true ↔ ∃ pre post, h = pre ++ n ++ post := by
  unfold containsSub startsList
  rw [List.any_eq_true]
  constructor
  · rintro ⟨i, hmem, hdec⟩
    rw [decide_eq_true_eq] at hdec
    refine ⟨h.take i, (h.drop i).drop n.length, ?_⟩
    calc h = h.take i ++ h.drop i := (List.take_append_drop i h).symm
    _ = h.take i ++ (List.take n.length (h.drop i) ++ List.drop n.length (h.drop i)) := by
        simp [List.take_append_drop]
    _ = h.take i ++ n ++ (h.drop i).drop n.length := by rw [hdec, List.append_assoc]
  · rintro ⟨pre, post, rfl⟩
    refine ⟨pre.length, ?_, ?_⟩
    · rw [List.mem_range]
      simp [List.length_append]
      omega
    · rw [decide_eq_true_eq, List.append_assoc, List.drop_left, List.take_left]

/-- Counterexample for C4: the claim's keyword set contains `reversal`, so
`looks_like_payment("REVERSAL")` would have to be `true`; the code's
`PAYMENT_KEYWORDS` instead contains the longer `late fee reversal`, and
`_is_payment("REVERSAL")` is `false` even though the lowercased input
contains `reversal`. -/
theorem counterexample_C4 :
    is_payment "REVERSAL".toList = false
      ∧ containsSub "reversal".toList (pyLower "REVERSAL".toList) = true := by
  decide

/-- Claim C4 as amended: `_is_payment(description)` is true exactly when
the lowercased description contains one of the fixed keywords
payment, thank you, credit, autopay, refund, adjustment,
late fee reversal (not bare `reversal`), returned; in particular it is
true on `PAYMENT THANK YOU` and false on `WHOLE FOODS MARKET`. -/
theorem claim_C4_amended :
    (∀ desc, is_payment desc = true ↔
      ∃ kw, kw ∈ PAYMENT_KEYWORDS ∧ ∃ pre post, pyLower desc = pre ++ kw ++ post)
    ∧ is_payment "PAYMENT THANK YOU".toList = true
    ∧ is_payment "WHOLE FOODS MARKET".toList = false := by
  refine ⟨?_, by decide, by decide⟩
  intro desc
  unfold is_payment
  rw [List.any_eq_true]
  constructor
  · rintro ⟨kw, hmem, hc⟩
    exact ⟨kw, hmem, (containsSub_iff kw (pyLower desc)).mp hc⟩
  · rintro ⟨kw, hmem, hex⟩
    exact ⟨kw, hmem, (containsSub_iff kw (pyLower desc)).mpr hex⟩

/-- Witness for the amended C4: the containment characterisation evaluated
on a concrete payment description. -/
theorem claim_C4_amended_witness :
    ∃ kw, kw ∈ PAYMENT_KEYWORDS
      ∧ ∃ pre post, pyLower "AUTOPAY RECEIVED".toList = pre ++ kw ++ post :=
  (claim_C4_amended.1 "AUTOPAY RECEIVED".toList).mp (by decide)

/-! ## Tabular bank detection order -/

/-- Claim C5: a table whose normalised columns contain the generic
`transaction date` + `amount` pair together with `debit`, `credit` and
`description` is detected as Capital One (never Chase); and in general the
detector is the first-match-wins chain Capital One, Chase, Discover, Amex
in that fixed order. -/
theorem claim_C5 (cols : List (List Char)) :
    (hasCol cols "transaction date".toList = true →
      hasCol cols "amount".toList = true →
      hasCol cols "debit".toList = true →
      hasCol cols "credit".toList = true →
      hasCol cols "description".toList = true →
      detect_bank cols = some Bank.capitalOne)
    ∧ detect_bank cols
      = (if bank_can_parse Bank.capitalOne cols = true then some Bank.capitalOne
        else if bank_can_parse Bank.chase cols = true then some Bank.chase
        else if bank_can_parse Bank.discover cols = true then some Bank.discover
        else if bank_can_parse Bank.amex cols = true then some Bank.amex
        else none) := by
  constructor
  · intro h1 h2 h3 h4 h5
    have hcap : bank_can_parse Bank.capitalOne cols = true := by
      show (hasCol cols "transaction date".toList
        && hasCol cols "description".toList && hasCol cols "debit".toList
        && hasCol cols "credit".toList) = true
      rw [h1, h5, h3, h4]
      rfl
    simp [detect_bank, ALL_PARSERS, List.find?, hcap]
  · by_cases h0 : bank_can_parse Bank.capitalOne cols = true <;>
      by_cases h1 : bank_can_parse Bank.chase cols = true <;>
        by_cases h2 : bank_can_parse Bank.discover cols = true <;>
          by_cases h3 : bank_can_parse Bank.amex cols = true <;>
            simp [detect_bank, ALL_PARSERS, List.find?, h0, h1, h2, h3]

/-- Columns matching both the Capital One and the Chase predicates. -/
def colsOverlapW : List (List Char) :=
  ["Transaction Date".toList, "Post Date".toList, "Description".toList,
   "Amount".toList, "Debit".toList, "Credit".toList]

/-- Witness for C5: on the overlapping table, Chase's predicate also
accepts, yet detection returns Capital One. -/
theorem claim_C5_witness :
    detect_bank colsOverlapW = some Bank.capitalOne
      ∧ bank_can_parse Bank.chase colsOverlapW = true :=
  ⟨(claim_C5 colsOverlapW).1 (by decide) (by decide) (by decide) (by decide)
      (by decide),
   by decide⟩

/-! ## PDF extraction strategy -/

/-- A page carrying both a parseable table and a different parseable text
line. -/
def pageTablesW : PdfPage :=
  ⟨[[[some "01/15/2025".toList, some "WHOLE FOODS".toList, some "45.67".toList]]],
   some "03/04/2025 STARBUCKS 5.00".toList⟩

/-- The one-page document built from `pageTablesW`. -/
def docTablesW : PdfDoc := ⟨[pageTablesW]⟩

/-- Counterexample for C6: the claim says every one of the four PDF
extractors parses table rows whenever the page yields tables, falling back
to text only otherwise.  On a page that has a table (holding a
`WHOLE FOODS` purchase) and text (holding a `STARBUCKS` purchase), the
Amex and Capital One extractors return the text-derived transaction — they
never consult tables — while row-parsing the same table would have
produced the different `WHOLE FOODS` transaction. -/
theorem counterexample_C6 :
    pageTablesW.tables ≠ []
      ∧ amexPdf_parse_transactions docTablesW none 2026
        = [⟨⟨2025, 3, 4⟩, 5, "STARBUCKS".toList⟩]
      ∧ capitalOnePdf_parse_transactions docTablesW none 2026
        = [⟨⟨2025, 3, 4⟩, 5, "STARBUCKS".toList⟩]
      ∧ chase_parse_table_rows
          [[some "01/15/2025".toList, some "WHOLE FOODS".toList,
            some "45.67".toList]] none 2026
        = [⟨⟨2025, 1, 15⟩, PyF.num (mkRat 4567 100), "WHOLE FOODS".toList⟩]
      ∧ (⟨⟨2025, 3, 4⟩, 5, "STARBUCKS".toList⟩ : Txn)
          ∉ chase_parse_table_rows
            [[some "01/15/2025".toList, some "WHOLE FOODS".toList,
              some "45.67".toList]] none 2026 := by
  decide

/-- Claim C6 as amended: the table-first strategy (tables present → every
table row parsed, text consulted only on table-less pages) holds for the
Chase and Discover PDF extractors; the Amex and Capital One PDF extractors
always parse text lines and ignore tables entirely.  All extractors are
per-page compositional and produce the same `Txn` shape. -/
theorem claim_C6_amended :
    (∀ doc sy ty, chasePdf_parse_transactions doc sy ty
      = doc.pages.flatMap (fun p => chasePdf_parse_transactions ⟨[p]⟩ sy ty))
    ∧ (∀ doc sy ty, discoverPdf_parse_transactions doc sy ty
      = doc.pages.flatMap (fun p => discoverPdf_parse_transactions ⟨[p]⟩ sy ty))
    ∧ (∀ doc sy ty, amexPdf_parse_transactions doc sy ty
      = doc.pages.flatMap (fun p => amexPdf_parse_transactions ⟨[p]⟩ sy ty))
    ∧ (∀ doc sy ty, capitalOnePdf_parse_transactions doc sy ty
      = doc.pages.flatMap (fun p => capitalOnePdf_parse_transactions ⟨[p]⟩ sy ty))
    ∧ (∀ tables text sy ty, tables ≠ [] →
      chasePdf_parse_transactions ⟨[⟨tables, text⟩]⟩ sy ty
        = tables.flatMap (fun tb => chase_parse_table_rows tb sy ty))
    ∧ (∀ tables text sy ty, tables ≠ [] →
      discoverPdf_parse_transactions ⟨[⟨tables, text⟩]⟩ sy ty
        = tables.flatMap (fun tb => discover_parse_table_rows tb sy ty))
    ∧ (∀ text sy ty, chasePdf_parse_transactions ⟨[⟨[], text⟩]⟩ sy ty
      = text_line_txns (text.getD []) sy ty)
    ∧ (∀ text sy ty, discoverPdf_parse_transactions ⟨[⟨[], text⟩]⟩ sy ty
      = text_line_txns (text.getD []) sy ty)
    ∧ (∀ tables text sy ty, amexPdf_parse_transactions ⟨[⟨tables, text⟩]⟩ sy ty
      = text_line_txns (text.getD []) sy ty)
    ∧ (∀ tables text sy ty,
      capitalOnePdf_parse_transactions ⟨[⟨tables, text⟩]⟩ sy ty
        = text_line_txns (text.getD []) sy ty) := by
  refine ⟨?_, ?_, ?_, ?_, ?_, ?_, ?_, ?_, ?_, ?_⟩
  · intro doc sy ty
    simp [chasePdf_parse_transactions]
  · intro doc sy ty
    simp [discoverPdf_parse_transactions]
  · intro doc sy ty
    simp [amexPdf_parse_transactions]
  · intro doc sy ty
    simp [capitalOnePdf_parse_transactions]
  · intro tables text sy ty h
    simp [chasePdf_parse_transactions, List.isEmpty_iff, h]
  · intro tables text sy ty h
    simp [discoverPdf_parse_transactions, List.isEmpty_iff, h]
  · intro text sy ty
    simp [chasePdf_parse_transactions]
  · intro text sy ty
    simp [discoverPdf_parse_transactions]
  · intro tables text sy ty
    simp [amexPdf_parse_transactions]
  · intro tables text sy ty
    simp [capitalOnePdf_parse_transactions]

/-- Witness for the amended C6 on the table-and-text page. -/
theorem claim_C6_amended_witness :
    chasePdf_parse_transactions ⟨[pageTablesW]⟩ none 2026
      = pageTablesW.tables.flatMap (fun tb => chase_parse_table_rows tb none 2026) :=
  claim_C6_amended.2.2.2.2.1 pageTablesW.tables pageTablesW.text none 2026
    (by decide)

/-! ## Fail-fast error characterisation -/

/-- The `InvalidDataError` message of `import_csv` for an unrecognized
schema: the exact observed column names followed by the supported banks. -/
def unrecogCsvMsg (columns : List (List Char)) : List Char :=
  "Unrecognized CSV format. Columns found: ".toList
    ++ joinWith ", ".toList columns
    ++ "\nSupported banks: Chase, Amex, Discover, Capital One".toList

/-- The fail-fast error of `import_csv` as a function of the source alone:
`some m` when the call raises `InvalidDataError(m)` before any extraction,
`none` when it proceeds to extraction and import. -/
def csv_err_msg : CsvSource → Option (List Char)
  | .unreadable e => some ("Could not read CSV file: ".toList ++ e)
  | .table df =>
    if df.rows = [] ∨ df.columns = [] then some "CSV file is empty.".toList
    else
      match detect_bank df.columns with
      | none => some (unrecogCsvMsg df.columns)
      | some _ => none

/-- The fail-fast error of `import_pdf` as a function of the source
alone. -/
def pdf_err_msg : PdfSource → Option (List Char)
  | .unreadable e => some ("Could not open PDF file: ".toList ++ e)
  | .doc pdf =>
    match pdf.pages with
    | [] => some "PDF has no pages.".toList
    | p0 :: _ =>
      if pyStrip (p0.text.getD []) = [] then
        some "PDF has no extractable text (may be image-based).".toList
      else
        match detect_pdf_bank (p0.text.getD []) with
        | none =>
          some ("Unrecognized PDF format. Could not identify the bank.\n"
            ++ "Supported banks: Chase, Amex, Discover, Capital One").toList
        | some _ => none

/-- `import_csv` raises exactly the fail-fast errors of `csv_err_msg`,
independently of the collaborators. -/
theorem csv_import_error_iff (env : Collab σc σs) (sc : σc) (ss : σs)
    (user card : List Char) (src : CsvSource) (m : List Char) :
    csv_import src env sc ss user card = .error m ↔ csv_err_msg src = some m := by
  match src with
  | .unreadable e => simp [csv_import, csv_err_msg]
  | .table df =>
    simp only [csv_import, csv_err_msg]
    split
    · simp
    · split <;> simp [unrecogCsvMsg]

/-- `import_pdf` raises exactly the fail-fast errors of `pdf_err_msg`,
independently of the collaborators and of the ambient year. -/
theorem pdf_import_error_iff (env : Collab σc σs) (sc : σc) (ss : σs)
    (user card : List Char) (ty : Nat) (src : PdfSource) (m : List Char) :
    pdf_import src env sc ss user card ty = .error m ↔ pdf_err_msg src = some m := by
  match src with
  | .unreadable e => simp [pdf_import, pdf_err_msg]
  | .doc pdf =>
    simp only [pdf_import, pdf_err_msg]
    split
    · simp
    · split
      · simp
      · split <;> simp

/-- Claim C7: `import_csv`/`import_pdf` fail fast with `InvalidDataError`,
before consulting the categorizer or the record store, in exactly these
cases: unreadable source (with the reader's message appended), empty
source (empty CSV table; PDF with no pages; PDF whose first page has no
extractable text), or no matching bank profile.  The unmatched-CSV message
lists the exact observed column names and the supported-bank list, and the
PDF empty-text error is distinct from the PDF unrecognized-bank error.
In every other case the import proceeds and returns a summary. -/
theorem claim_C7 (σc σs : Type) (env : Collab σc σs) (sc : σc) (ss : σs)
    (user card : List Char) :
    (∀ src m, csv_import src env sc ss user card = .error m
      ↔ csv_err_msg src = some m)
    ∧ (∀ ty src m, pdf_import src env sc ss user card ty = .error m
      ↔ pdf_err_msg src = some m)
    ∧ (∀ src, csv_err_msg src = none →
      ∃ r sc' ss', csv_import src env sc ss user card = .ok (r, sc', ss'))
    ∧ (∀ ty src, pdf_err_msg src = none →
      ∃ r sc' ss', pdf_import src env sc ss user card ty = .ok (r, sc', ss'))
    ∧ (∀ columns,
      containsSub (joinWith ", ".toList columns) (unrecogCsvMsg columns) = true
      ∧ containsSub "Chase, Amex, Discover, Capital One".toList
          (unrecogCsvMsg columns) = true)
    ∧ "PDF has no extractable text (may be image-based).".toList
      ≠ ("Unrecognized PDF format. Could not identify the bank.\n"
        ++ "Supported banks: Chase, Amex, Discover, Capital One").toList := by
  refine ⟨csv_import_error_iff env sc ss user card,
    pdf_import_error_iff env sc ss user card, ?_, ?_, ?_, by decide⟩
  · intro src hnone
    rcases hr : csv_import src env sc ss user card with m | ⟨r, sc', ss'⟩
    · rw [csv_import_error_iff env sc ss user card src m] at hr
      rw [hr] at hnone
      cases hnone
    · exact ⟨r, sc', ss', rfl⟩
  · intro ty src hnone
    rcases hr : pdf_import src env sc ss user card ty with m | ⟨r, sc', ss'⟩
    · rw [pdf_import_error_iff env sc ss user card ty src m] at hr
      rw [hr] at hnone
      cases hnone
    · exact ⟨r, sc', ss', rfl⟩
  · intro columns
    constructor
    · exact (containsSub_iff _ _).mpr
        ⟨"Unrecognized CSV format. Columns found: ".toList,
         "\nSupported banks: Chase, Amex, Discover, Capital One".toList,
         by simp [unrecogCsvMsg]⟩
    · refine (containsSub_iff _ _).mpr
        ⟨"Unrecognized CSV format. Columns found: ".toList
          ++ joinWith ", ".toList columns ++ "\nSupported banks: ".toList,
         [], ?_⟩
      have hsplit :
          "\nSupported banks: Chase, Amex, Discover, Capital One".toList
            = "\nSupported banks: ".toList
              ++ "Chase, Amex, Discover, Capital One".toList := by decide
      simp [unrecogCsvMsg, hsplit]

/-- Witness for C7: the concrete unrecognized-schema error for a two-column
table, via the error characterisation. -/
theorem claim_C7_witness :
    csv_import (.table ⟨["Foo".toList, "Bar".toList],
        [⟨some 1, none, none, none, some "X".toList, none⟩]⟩)
      envAllOk () 0 "user1".toList []
      = .error (unrecogCsvMsg ["Foo".toList, "Bar".toList]) :=
  ((claim_C7 Unit Nat envAllOk () 0 "user1".toList []).1
    (.table ⟨["Foo".toList, "Bar".toList],
      [⟨some 1, none, none, none, some "X".toList, none⟩]⟩)
    (unrecogCsvMsg ["Foo".toList, "Bar".toList])).mpr (by decide)

/-! ## Statement-year resolution -/

/-- `re.search` semantics: a hit is the value at the leftmost matching
position, every earlier position failing. -/
theorem reSearch_eq_some_iff (f : List Char → Option β) (s : List Char) (v : β) :
    reSearch f s = some v ↔
      ∃ i, f (s.drop i) = some v ∧ ∀ j < i, f (s.drop j) = none := by
  induction s with
  | nil =>
    simp only [reSearch, List.drop_nil]
    constructor
    · intro h
      exact ⟨0, h, fun j hj => absurd hj (by omega)⟩
    · rintro ⟨i, hi, -⟩
      exact hi
  | cons c cs ih =>
    simp only [reSearch]
    cases hf : f (c :: cs) with
    | some w =>
      constructor
      · intro h
        exact ⟨0, by simpa using hf.trans h, fun j hj => absurd hj (by omega)⟩
      · rintro ⟨i, hi, hj⟩
        match i with
        | 0 =>
          rw [List.drop_zero] at hi
          rw [hf] at hi
          exact hi
        | i + 1 =>
          have h0 := hj 0 (by omega)
          rw [List.drop_zero, hf] at h0
          cases h0
    | none =>
      rw [ih]
      constructor
      · rintro ⟨i, hi, hj⟩
        refine ⟨i + 1, by simpa using hi, ?_⟩
        intro j hj1
        match j with
        | 0 => simpa using hf
        | j + 1 =>
          have := hj j (by omega)
          simpa using this
      · rintro ⟨i, hi, hj⟩
        match i with
        | 0 =>
          rw [List.drop_zero, hf] at hi
          cases hi
        | i + 1 =>
          refine ⟨i, by simpa using hi, fun j hjlt => ?_⟩
          have := hj (j + 1) (by omega)
          simpa using this

/-- `re.search` fails exactly when no position matches. -/
theorem reSearch_eq_none_iff (f : List Char → Option β) (s : List Char) :
    reSearch f s = none ↔ ∀ i, f (s.drop i) = none := by
  induction s with
  | nil =>
    simp only [reSearch, List.drop_nil]
    exact ⟨fun h _ => h, fun h => h 0⟩
  | cons c cs ih =>
    simp only [reSearch]
    cases hf : f (c :: cs) with
    | some w =>
      constructor
      · intro h
        cases h
      · intro h
        have h0 := h 0
        rw [List.drop_zero, hf] at h0
        cases h0
    | none =>
      rw [ih]
      constructor
      · intro h i
        match i with
        | 0 => simpa using hf
        | i + 1 => simpa using h i
      · intro h i
        have := h (i + 1)
        simpa using this

/-- Two leftmost hits of the same matcher agree. -/
theorem firstHit_unique {f : List Char → Option β} {s : List Char}
    {v w : β} {i i' : Nat}
    (h1 : f (s.drop i) = some v) (h2 : ∀ j < i, f (s.drop j) = none)
    (h3 : f (s.drop i') = some w) (h4 : ∀ j < i', f (s.drop j) = none) :
    v = w := by
  rcases Nat.lt_trichotomy i i' with h | h | h
  · rw [h4 i h] at h1
    cases h1
  · subst h
    rw [h1] at h3
    exact Option.some.inj h3
  · rw [h2 i' h] at h3
    cases h3

/-- The claim's reading of statement-year resolution: scan the text left to
right and return the year of the first position where either the
`MM/DD/YYYY` pattern or the month-name + year pattern matches, whichever
pattern occurs first in text order. -/
def extract_year_first_in_text (s : List Char) : Option Nat :=
  reSearch (fun t =>
    match matchSlashYear t with
    | some y => some y
    | none => matchMonthYear t) s

/-- Counterexample for C9: in a text whose first year-bearing pattern (in
text order) is the month-name phrase `January 2024`, the claim requires
2024, but `_extract_year_from_text` searches the whole text for the slash
pattern first and returns 2025 from the later `03/05/2025`. -/
theorem counterexample_C9 :
    extract_year_first_in_text "January 2024 Closing date 03/05/2025".toList
      = some 2024
    ∧ extract_year_from_text "January 2024 Closing date 03/05/2025".toList
      = some 2025 := by
  decide

/-- Claim C9 as amended: `_extract_year_from_text` returns the year of the
leftmost `MM/DD/YYYY` occurrence if the text contains one anywhere, else
the year of the leftmost `<Month name> <year>` occurrence, and `None` when
the text contains neither pattern (the slash pattern takes precedence over
the month pattern regardless of their positions in the text). -/
theorem claim_C9_amended (s : List Char) (y : Nat) :
    (extract_year_from_text s = some y ↔
      (∃ i, matchSlashYear (List.drop i s) = some y
        ∧ ∀ j < i, matchSlashYear (List.drop j s) = none)
      ∨ ((∀ i, matchSlashYear (List.drop i s) = none)
        ∧ ∃ i, matchMonthYear (List.drop i s) = some y
          ∧ ∀ j < i, matchMonthYear (List.drop j s) = none))
    ∧ (extract_year_from_text s = none ↔
      (∀ i, matchSlashYear (List.drop i s) = none)
      ∧ ∀ i, matchMonthYear (List.drop i s) = none) := by
  rcases hs : reSearch matchSlashYear s with _ | y1
  · have hnone := (reSearch_eq_none_iff matchSlashYear s).mp hs
    have hd : extract_year_from_text s = reSearch matchMonthYear s := by
      unfold extract_year_from_text
      rw [hs]
    rw [hd]
    rcases hm : reSearch matchMonthYear s with _ | y2
    · have hmn := (reSearch_eq_none_iff matchMonthYear s).mp hm
      constructor
      · constructor
        · intro h
          cases h
        · rintro (⟨i, hi, -⟩ | ⟨-, i, hi, -⟩)
          · rw [hnone i] at hi
            cases hi
          · rw [hmn i] at hi
            cases hi
      · exact ⟨fun _ => ⟨hnone, hmn⟩, fun _ => rfl⟩
    · rw [reSearch_eq_some_iff] at hm
      obtain ⟨i0, hi0, hj0⟩ := hm
      constructor
      · constructor
        · intro h
          have hy : y2 = y := Option.some.inj h
          subst hy
          exact Or.inr ⟨hnone, i0, hi0, hj0⟩
        · rintro (⟨i, hi, -⟩ | ⟨-, i, hi, hj⟩)
          · rw [hnone i] at hi
            cases hi
          · rw [firstHit_unique hi0 hj0 hi hj]
      · constructor
        · intro h
          cases h
        · rintro ⟨-, hall⟩
          rw [hall i0] at hi0
          cases hi0
  · have hd : extract_year_from_text s = some y1 := by
      unfold extract_year_from_text
      rw [hs]
    rw [reSearch_eq_some_iff] at hs
    obtain ⟨i0, hi0, hj0⟩ := hs
    rw [hd]
    constructor
    · constructor
      · intro h
        have hy : y1 = y := Option.some.inj h
        subst hy
        exact Or.inl ⟨i0, hi0, hj0⟩
      · rintro (⟨i, hi, hj⟩ | ⟨hall, -⟩)
        · rw [firstHit_unique hi0 hj0 hi hj]
        · rw [hall i0] at hi0
          cases hi0
    · constructor
      · intro h
        cases h
      · rintro ⟨hall, -⟩
        rw [hall i0] at hi0
        cases hi0

/-- Witness for the amended C9: the characterisation instantiated on a
concrete text containing one slash date. -/
theorem claim_C9_amended_witness :
    (∃ i, matchSlashYear (List.drop i "x 03/05/2025".toList) = some 2025
      ∧ ∀ j < i, matchSlashYear (List.drop j "x 03/05/2025".toList) = none)
    ∨ ((∀ i, matchSlashYear (List.drop i "x 03/05/2025".toList) = none)
      ∧ ∃ i, matchMonthYear (List.drop i "x 03/05/2025".toList) = some 2025
        ∧ ∀ j < i, matchMonthYear (List.drop j "x 03/05/2025".toList) = none) :=
  ((claim_C9_amended "x 03/05/2025".toList 2025).1).mp (by decide)
